import Mathlib

/-!
Shallow embedding of the TiDB migration cost calculator.

Numbers from the JavaScript source are modelled as exact rationals.
The `Math.ceil` function is `ceilq`, the JavaScript fallback idiom
`obj[key]?.field || d` (which yields `d` both for a missing key and for a
zero field value) is `jsOr`, and `String.prototype.startsWith` is
`strStarts`.  The recomputation effect of the React component is the
function `recompute`, which rewrites the cluster topology, the SQL tier
instance selection, and (when the source instance class changed) the
bounded change history, exactly as the source effect does.
-/

/-- Ceiling on rationals, coerced back into the rationals, modelling
JavaScript `Math.ceil` on exact values. -/
def ceilq (q : ℚ) : ℚ := (⌈q⌉ : ℚ)

/-- JavaScript `opt?.field || d`: a missing key or a zero value falls back
to the default `d`. -/
def jsOr (v : Option ℚ) (d : ℚ) : ℚ :=
  match v with
  | some x => if x = 0 then d else x
  | none => d

/-- Boolean test that the character list `s` begins with the character
list `p`. -/
def charsStartWith : List Char → List Char → Bool
  | _, [] => true
  | [], _ :: _ => false
  | a :: as, p :: ps => a == p && charsStartWith as ps

/-- JavaScript `s.startsWith(p)`. -/
def strStarts (s p : String) : Bool := charsStartWith s.data p.data

/-- One EC2 catalog row: vCPU count, memory in GB, monthly cost, and the
optional attached NVMe capacity. -/
structure Ec2Info where
  vCPU : ℚ
  memory : ℚ
  monthlyCost : ℚ
  nvme : Option ℚ
deriving Repr

/-- The `ec2InstanceTypes` lookup table from the source. -/
def ec2InstanceTypes (key : String) : Option Ec2Info :=
  if key = "c5.2xlarge" then some { vCPU := 8, memory := 16, monthlyCost := 246, nvme := none }
  else if key = "c5.4xlarge" then some { vCPU := 16, memory := 32, monthlyCost := 493, nvme := none }
  else if key = "c5.9xlarge" then some { vCPU := 36, memory := 72, monthlyCost := 1109, nvme := none }
  else if key = "r5.2xlarge" then some { vCPU := 8, memory := 64, monthlyCost := 387, nvme := none }
  else if key = "r5.4xlarge" then some { vCPU := 16, memory := 128, monthlyCost := 774, nvme := none }
  else if key = "r5.8xlarge" then some { vCPU := 32, memory := 256, monthlyCost := 1548, nvme := none }
  else if key = "m5.2xlarge" then some { vCPU := 8, memory := 32, monthlyCost := 278, nvme := none }
  else if key = "m5.4xlarge" then some { vCPU := 16, memory := 64, monthlyCost := 556, nvme := none }
  else if key = "i3.2xlarge" then some { vCPU := 8, memory := 61, monthlyCost := 499, nvme := some 1900 }
  else if key = "i3.4xlarge" then some { vCPU := 16, memory := 122, monthlyCost := 998, nvme := some 3800 }
  else if key = "i3.8xlarge" then some { vCPU := 32, memory := 244, monthlyCost := 1995, nvme := some 7600 }
  else if key = "i3en.2xlarge" then some { vCPU := 8, memory := 64, monthlyCost := 623, nvme := some 5000 }
  else if key = "i3en.3xlarge" then some { vCPU := 12, memory := 96, monthlyCost := 935, nvme := some 7500 }
  else none

/-- One EBS volume pricing row. -/
structure EbsInfo where
  basePrice : ℚ
  throughputPrice : Option ℚ
  iopsPrice : Option ℚ
deriving Repr

/-- The gp3 pricing row, which is also the fallback for unknown volume
types. -/
def gp3Info : EbsInfo :=
  { basePrice := 8 / 100, throughputPrice := some (4 / 100), iopsPrice := some (5 / 1000) }

/-- The `ebsVolumeTypes` lookup table from the source. -/
def ebsVolumeTypes (key : String) : Option EbsInfo :=
  if key = "gp3" then some gp3Info
  else if key = "gp2" then some { basePrice := 10 / 100, throughputPrice := none, iopsPrice := none }
  else if key = "io1" then some { basePrice := 125 / 1000, throughputPrice := none, iopsPrice := some (65 / 1000) }
  else if key = "io2" then some { basePrice := 125 / 1000, throughputPrice := none, iopsPrice := some (65 / 1000) }
  else none

/-- One PostgreSQL catalog row. -/
structure PgInstanceInfo where
  vCPU : ℚ
  memory : ℚ
  monthlyCost : ℚ
deriving Repr

/-- The `postgresInstanceTypes` lookup table from the source. -/
def postgresInstanceTypes (key : String) : Option PgInstanceInfo :=
  if key = "db.m5.large" then some { vCPU := 2, memory := 8, monthlyCost := 218 }
  else if key = "db.m5.xlarge" then some { vCPU := 4, memory := 16, monthlyCost := 437 }
  else if key = "db.m5.2xlarge" then some { vCPU := 8, memory := 32, monthlyCost := 874 }
  else if key = "db.r5.large" then some { vCPU := 2, memory := 16, monthlyCost := 276 }
  else if key = "db.r5.xlarge" then some { vCPU := 4, memory := 32, monthlyCost := 552 }
  else if key = "db.r5.2xlarge" then some { vCPU := 8, memory := 64, monthlyCost := 1104 }
  else if key = "db.r5.4xlarge" then some { vCPU := 16, memory := 128, monthlyCost := 2208 }
  else none

/-- The `postgres` state record (source PostgreSQL deployment). -/
@[ext] structure PostgresConfig where
  instanceType : String
  instanceCount : ℚ
  storageGB : ℚ
  iops : ℚ
  readOps : ℚ
  writeOps : ℚ
  monthlyCost : ℚ
  multiAZ : Bool
  readReplicas : ℚ
deriving Repr

/-- The `workload` state record. -/
@[ext] structure Workload where
  readWriteRatio : String
  type : String
  dataGrowthRate : ℚ
  concurrentConnections : ℚ
  trafficSpikes : Bool
  peakRatio : ℚ
deriving Repr

/-- The `tidbCluster` state record (target topology). -/
@[ext] structure TidbCluster where
  tidbNodes : ℚ
  tikvNodes : ℚ
  pdNodes : ℚ
  tiflashNodes : ℚ
  useTiflash : Bool
  eksClusterCount : ℚ
  k8sWorkerNodes : ℚ
  availabilityZones : ℚ
  dataReplicationFactor : ℚ
deriving Repr

/-- The `instances` state record (EC2 instance selection per tier). -/
@[ext] structure Instances where
  tidbInstanceType : String
  tikvInstanceType : String
  pdInstanceType : String
  tiflashInstanceType : String
  monitoringInstanceType : String
deriving Repr

/-- The `storage` state record (EBS configuration per tier). -/
@[ext] structure StorageConfig where
  tidbEbsType : String
  tidbEbsSize : ℚ
  tikvUseInstanceStore : Bool
  tikvAdditionalEbsType : String
  tikvAdditionalEbsSize : ℚ
  pdEbsType : String
  pdEbsSize : ℚ
  tiflashEbsType : String
  tiflashEbsSize : ℚ
deriving Repr

/-- The `operational` state record. -/
@[ext] structure Operational where
  backupToS3 : Bool
  backupSizeGB : ℚ
  networkTrafficGB : ℚ
  eksClusterCost : ℚ
  eksMonitoringCost : ℚ
  migrationCost : ℚ
  operationalFTE : ℚ
deriving Repr

/-- One change history entry.  The source renders the four `...Change`
fields as text such as `"8 -> 16"`; here each is kept as the pair of
values that the text displays. -/
@[ext] structure HistoryEntry where
  id : Nat
  fromType : String
  toType : String
  vcpuChange : ℚ × ℚ
  memoryChange : ℚ × ℚ
  tidbNodesChange : ℚ × ℚ
  tikvNodesChange : ℚ × ℚ
  instanceTypeChange : String × String
  tidbNodes : ℚ
  tikvNodes : ℚ
  tidbInstanceType : String
  monthlyCost : ℚ
deriving Repr

/-- The complete engine state: all the React state records that the
recomputation effect reads or writes, with `previousInstanceType` and
`history` from the `comparisonData` record. -/
@[ext] structure EngineState where
  postgres : PostgresConfig
  workload : Workload
  tidbCluster : TidbCluster
  instances : Instances
  storage : StorageConfig
  operational : Operational
  previousInstanceType : String
  history : List HistoryEntry
deriving Repr

/-- Source line 209: `postgresInstanceTypes[postgres.instanceType]?.vCPU || 8`. -/
def postgresVcpu (p : PostgresConfig) : ℚ :=
  jsOr ((postgresInstanceTypes p.instanceType).map PgInstanceInfo.vCPU) 8

/-- Source line 210: `postgresInstanceTypes[postgres.instanceType]?.memory || 32`. -/
def postgresMemory (p : PostgresConfig) : ℚ :=
  jsOr ((postgresInstanceTypes p.instanceType).map PgInstanceInfo.memory) 32

/-- Source lines 211-216: total vCPU of primaries plus the proportional
contribution of the read replicas. -/
def effectivePostgresVcpu (p : PostgresConfig) : ℚ :=
  let totalPostgresVcpu := postgresVcpu p * p.instanceCount
  totalPostgresVcpu + totalPostgresVcpu * (p.readReplicas / p.instanceCount)

/-- Source line 221: vCPU of the currently selected TiDB instance class,
fallback 16. -/
def vcpuPerTidbNode (i : Instances) : ℚ :=
  jsOr ((ec2InstanceTypes i.tidbInstanceType).map Ec2Info.vCPU) 16

/-- Source line 222: SQL tier node candidate from compute load. -/
def suggestedTidbNodesFromCpu (p : PostgresConfig) (i : Instances) : ℚ :=
  max 3 (ceilq (effectivePostgresVcpu p / vcpuPerTidbNode i))

/-- Source line 225: SQL tier node candidate from connection count. -/
def suggestedTidbNodesFromConn (w : Workload) : ℚ :=
  max 3 (ceilq (w.concurrentConnections / 500))

/-- Source line 228: the larger of the two SQL tier candidates. -/
def baseTidbNodes (p : PostgresConfig) (w : Workload) (i : Instances) : ℚ :=
  max (suggestedTidbNodesFromCpu p i) (suggestedTidbNodesFromConn w)

/-- Source lines 235-238: TiKV sizing from storage capacity, rounded up
to a multiple of 3. -/
def suggestedTikvNodesForStorage (p : PostgresConfig) (c : TidbCluster) : ℚ :=
  ceilq ((p.storageGB * (4 / 10) * c.dataReplicationFactor) / ((8 / 10) * 4000 * 3)) * 3

/-- Source line 243: TiKV sizing from write throughput. -/
def suggestedTikvNodesFromWrites (p : PostgresConfig) : ℚ :=
  max 3 (ceilq (p.writeOps / 5000 / 3) * 3)

/-- Source line 246: TiKV node count before the write-heavy multiplier. -/
def suggestedTikvNodes (p : PostgresConfig) (c : TidbCluster) : ℚ :=
  max 3 (max (suggestedTikvNodesForStorage p c) (suggestedTikvNodesFromWrites p))

/-- Source lines 249-250: write-heavy multiplier, selected by a string
prefix match on the read/write ratio. -/
def writeHeavyFactor (w : Workload) : ℚ :=
  if strStarts w.readWriteRatio "50" then 3 / 2
  else if strStarts w.readWriteRatio "30" then 2
  else 1

/-- Source line 253: the analytics tier is active for OLAP or Mixed
workloads. -/
def useTiflash (w : Workload) : Bool :=
  w.type = "OLAP" || w.type = "Mixed"

/-- Source line 256: analytics replica count. -/
def tiflashReplicas (w : Workload) : ℚ :=
  if useTiflash w then 2 else 0

/-- Source lines 257-259: analytics node count. -/
def suggestedTiflashNodes (p : PostgresConfig) (w : Workload) (c : TidbCluster) : ℚ :=
  if useTiflash w then
    max 2 (ceilq ((p.storageGB * (4 / 10) * tiflashReplicas w) /
      (c.dataReplicationFactor * (8 / 10) * 4000)))
  else 0

/-- Source line 262: spike multiplier. -/
def spikeFactor (w : Workload) : ℚ :=
  if w.trafficSpikes then min 2 (w.peakRatio / 2) else 1

/-- Source lines 266-272: total component count hosted on the worker
nodes. -/
def totalComponents (p : PostgresConfig) (w : Workload) (i : Instances) (c : TidbCluster) : ℚ :=
  ceilq (baseTidbNodes p w i * spikeFactor w) +
  ceilq (suggestedTikvNodes p c * writeHeavyFactor w) +
  c.pdNodes + suggestedTiflashNodes p w c + 1

/-- Source line 273: worker node estimate. -/
def suggestedWorkerNodes (p : PostgresConfig) (w : Workload) (i : Instances) (c : TidbCluster) : ℚ :=
  max 6 (ceilq (totalComponents p w i c / (15 / 10)))

/-- Source lines 276-283: the topology update written by the effect. -/
def setTidbCluster (p : PostgresConfig) (w : Workload) (i : Instances) (c : TidbCluster) :
    TidbCluster :=
  { c with
    tidbNodes := ceilq (baseTidbNodes p w i * spikeFactor w)
    tikvNodes := ceilq (suggestedTikvNodes p c * writeHeavyFactor w)
    useTiflash := useTiflash w
    tiflashNodes := suggestedTiflashNodes p w c
    k8sWorkerNodes := suggestedWorkerNodes p w i c }

/-- Source lines 287-302: the SQL tier instance class recommended from
the source memory per instance. -/
def recommendedTidbInstanceType (p : PostgresConfig) : String :=
  if 128 ≤ postgresMemory p then "r5.4xlarge"
  else if 64 ≤ postgresMemory p then "r5.2xlarge"
  else "c5.4xlarge"

/-- Source lines 287-302: the instance selection update written by the
effect. -/
def setInstances (p : PostgresConfig) (i : Instances) : Instances :=
  { i with tidbInstanceType := recommendedTidbInstanceType p }

/-- Source lines 397-401 and 315-319: per tier instance monthly cost with
fallback constants. -/
def tidbInstanceCost (i : Instances) : ℚ :=
  jsOr ((ec2InstanceTypes i.tidbInstanceType).map Ec2Info.monthlyCost) 493

/-- Monthly cost of the selected TiKV instance class, fallback 998. -/
def tikvInstanceCost (i : Instances) : ℚ :=
  jsOr ((ec2InstanceTypes i.tikvInstanceType).map Ec2Info.monthlyCost) 998

/-- Monthly cost of the selected PD instance class, fallback 278. -/
def pdInstanceCost (i : Instances) : ℚ :=
  jsOr ((ec2InstanceTypes i.pdInstanceType).map Ec2Info.monthlyCost) 278

/-- Monthly cost of the selected TiFlash instance class, fallback 1995. -/
def tiflashInstanceCost (i : Instances) : ℚ :=
  jsOr ((ec2InstanceTypes i.tiflashInstanceType).map Ec2Info.monthlyCost) 1995

/-- Monthly cost of the selected monitoring instance class, fallback 246. -/
def monitoringInstanceCost (i : Instances) : ℚ :=
  jsOr ((ec2InstanceTypes i.monitoringInstanceType).map Ec2Info.monthlyCost) 246

/-- Source lines 321-326: the compute-only cost recorded for a history
entry, as a function of a topology and an instance selection. -/
def computeCost (c : TidbCluster) (i : Instances) : ℚ :=
  tidbInstanceCost i * c.tidbNodes +
  tikvInstanceCost i * c.tikvNodes +
  pdInstanceCost i * c.pdNodes +
  tiflashInstanceCost i * c.tiflashNodes +
  monitoringInstanceCost i

/-- Source line 307: `postgresInstanceTypes[t]?.vCPU || 0`. -/
def pgVcpuOr0 (t : String) : ℚ :=
  jsOr ((postgresInstanceTypes t).map PgInstanceInfo.vCPU) 0

/-- Source line 308: `postgresInstanceTypes[t]?.memory || 0`. -/
def pgMemOr0 (t : String) : ℚ :=
  jsOr ((postgresInstanceTypes t).map PgInstanceInfo.memory) 0

/-- Source line 340: TiDB node count of the most recent history entry,
or the baseline 3 when the log is empty. -/
def lastTidbNodes (h : List HistoryEntry) : ℚ :=
  match h.getLast? with
  | some e => e.tidbNodes
  | none => 3

/-- Source line 341: TiKV node count of the most recent history entry,
or the baseline 3 when the log is empty. -/
def lastTikvNodes (h : List HistoryEntry) : ℚ :=
  match h.getLast? with
  | some e => e.tikvNodes
  | none => 3

/-- Source line 342: SQL instance class of the most recent history entry,
or the baseline class when the log is empty. -/
def lastTidbInstanceType (h : List HistoryEntry) : String :=
  match h.getLast? with
  | some e => e.tidbInstanceType
  | none => "c5.4xlarge"

/-- Source lines 306-347: the history entry created when the source
instance class changed.  The entry id is the length of the log after the
eviction step, and the recorded monthly cost is the compute-only total
built from the instance classes selected before this recomputation. -/
def newHistoryEntry (s : EngineState) : HistoryEntry :=
  let prevType := s.previousInstanceType
  let trimmed := if 10 ≤ s.history.length then s.history.drop 1 else s.history
  let derivedTidbNodes := ceilq (baseTidbNodes s.postgres s.workload s.instances * spikeFactor s.workload)
  let derivedTikvNodes := ceilq (suggestedTikvNodes s.postgres s.tidbCluster * writeHeavyFactor s.workload)
  { id := trimmed.length
    fromType := prevType
    toType := s.postgres.instanceType
    vcpuChange := (pgVcpuOr0 prevType, pgVcpuOr0 s.postgres.instanceType)
    memoryChange := (pgMemOr0 prevType, pgMemOr0 s.postgres.instanceType)
    tidbNodesChange := (lastTidbNodes s.history, derivedTidbNodes)
    tikvNodesChange := (lastTikvNodes s.history, derivedTikvNodes)
    instanceTypeChange := (lastTidbInstanceType s.history, recommendedTidbInstanceType s.postgres)
    tidbNodes := derivedTidbNodes
    tikvNodes := derivedTikvNodes
    tidbInstanceType := recommendedTidbInstanceType s.postgres
    monthlyCost :=
      tidbInstanceCost s.instances * derivedTidbNodes +
      tikvInstanceCost s.instances * derivedTikvNodes +
      pdInstanceCost s.instances * s.tidbCluster.pdNodes +
      tiflashInstanceCost s.instances * suggestedTiflashNodes s.postgres s.workload s.tidbCluster +
      monitoringInstanceCost s.instances }

/-- Source lines 328-334: copy the log, evict the oldest entry when the
log already holds 10 entries, then append. -/
def pushBounded {α : Type} (h : List α) (e : α) : List α :=
  (if 10 ≤ h.length then h.drop 1 else h) ++ [e]

/-- Source lines 207-371: one run of the recomputation effect.  The
topology and the SQL tier instance selection are always rewritten; the
history log and `previousInstanceType` are updated only when the source
instance class changed. -/
def recompute (s : EngineState) : EngineState :=
  if s.postgres.instanceType = s.previousInstanceType then
    { s with
      tidbCluster := setTidbCluster s.postgres s.workload s.instances s.tidbCluster,
      instances := setInstances s.postgres s.instances }
  else
    { s with
      tidbCluster := setTidbCluster s.postgres s.workload s.instances s.tidbCluster,
      instances := setInstances s.postgres s.instances,
      previousInstanceType := s.postgres.instanceType,
      history := pushBounded s.history (newHistoryEntry s) }

/-- Source lines 375-394: EBS volume monthly cost. -/
def calculateEbsCost (ty : String) (sizeGB iops throughput : ℚ) : ℚ :=
  if sizeGB = 0 then 0
  else
    let ebsType := (ebsVolumeTypes ty).getD gp3Info
    let c0 := sizeGB * ebsType.basePrice
    let c1 := if ty = "gp3" ∧ 3000 < iops then c0 + (iops - 3000) * ebsType.iopsPrice.getD 0 else c0
    let c2 := if ty = "gp3" ∧ 125 < throughput then c1 + (throughput - 125) * ebsType.throughputPrice.getD 0 else c1
    if (ty = "io1" ∨ ty = "io2") ∧ iops ≠ 0 then c2 + iops * ebsType.iopsPrice.getD 0 else c2

/-- Source lines 404-409: total EC2 instance cost of the current state. -/
def totalInstanceCost (s : EngineState) : ℚ :=
  tidbInstanceCost s.instances * s.tidbCluster.tidbNodes +
  tikvInstanceCost s.instances * s.tidbCluster.tikvNodes +
  pdInstanceCost s.instances * s.tidbCluster.pdNodes +
  tiflashInstanceCost s.instances * s.tidbCluster.tiflashNodes +
  monitoringInstanceCost s.instances

/-- Source line 412: TiDB tier EBS cost. -/
def tidbStorageCost (s : EngineState) : ℚ :=
  calculateEbsCost s.storage.tidbEbsType s.storage.tidbEbsSize 3000 125 * s.tidbCluster.tidbNodes

/-- Source line 416: TiKV tier additional EBS cost. -/
def tikvAdditionalStorageCost (s : EngineState) : ℚ :=
  calculateEbsCost s.storage.tikvAdditionalEbsType s.storage.tikvAdditionalEbsSize 3000 125 *
    s.tidbCluster.tikvNodes

/-- Source line 418: PD tier EBS cost. -/
def pdStorageCost (s : EngineState) : ℚ :=
  calculateEbsCost s.storage.pdEbsType s.storage.pdEbsSize 3000 125 * s.tidbCluster.pdNodes

/-- Source line 419: TiFlash tier EBS cost. -/
def tiflashStorageCost (s : EngineState) : ℚ :=
  calculateEbsCost s.storage.tiflashEbsType s.storage.tiflashEbsSize 3000 125 *
    s.tidbCluster.tiflashNodes

/-- Source line 421: total storage cost. -/
def totalStorageCost (s : EngineState) : ℚ :=
  tidbStorageCost s + tikvAdditionalStorageCost s + pdStorageCost s + tiflashStorageCost s

/-- Source line 424: S3 backup cost. -/
def s3BackupCost (s : EngineState) : ℚ :=
  if s.operational.backupToS3 then s.operational.backupSizeGB * (23 / 1000) else 0

/-- Source line 427: network cost. -/
def networkCost (s : EngineState) : ℚ :=
  s.operational.networkTrafficGB * (1 / 100)

/-- Source lines 430-432: Kubernetes management cost. -/
def totalKubernetesCost (s : EngineState) : ℚ :=
  s.tidbCluster.eksClusterCount * s.operational.eksClusterCost + s.operational.eksMonitoringCost

/-- Source line 435: total recurring monthly cost. -/
def totalMonthlyCost (s : EngineState) : ℚ :=
  totalInstanceCost s + totalStorageCost s + s3BackupCost s + networkCost s + totalKubernetesCost s

/-- Source line 442: monthly savings against the source deployment. -/
def monthlySavings (s : EngineState) : ℚ :=
  s.postgres.monthlyCost - totalMonthlyCost s

/-- Source line 443: savings percentage, 0 when the source monthly cost
is not positive. -/
def savingsPercentage (s : EngineState) : ℚ :=
  if 0 < s.postgres.monthlyCost then monthlySavings s / s.postgres.monthlyCost * 100 else 0

/-- Source line 444: payback period in months.  The source yields the
JavaScript value `Infinity` when savings are not positive; `Infinity` is
not a rational number, so that branch is `none`. -/
def paybackPeriodMonths (s : EngineState) : Option ℚ :=
  if 0 < monthlySavings s then some (s.operational.migrationCost / monthlySavings s) else none

/-- Source lines 448-458: the cost breakdown regenerated on every
recomputation. -/
def costBreakdownData (s : EngineState) : List (String × ℚ) :=
  [("TiDB Nodes", tidbInstanceCost s.instances * s.tidbCluster.tidbNodes),
   ("TiKV Nodes", tikvInstanceCost s.instances * s.tidbCluster.tikvNodes),
   ("PD Nodes", pdInstanceCost s.instances * s.tidbCluster.pdNodes),
   ("TiFlash Nodes", tiflashInstanceCost s.instances * s.tidbCluster.tiflashNodes),
   ("Monitoring", monitoringInstanceCost s.instances),
   ("Storage", totalStorageCost s),
   ("S3 Backup", s3BackupCost s),
   ("Network", networkCost s),
   ("Kubernetes", totalKubernetesCost s)]

/-- Source lines 128-159: the `handlePostgresChange` branch for an
instance type change, which also rewrites the source monthly cost. -/
def changeInstanceType (t : String) (s : EngineState) : EngineState :=
  let instanceCost := jsOr ((postgresInstanceTypes t).map PgInstanceInfo.monthlyCost) 0
  { s with postgres :=
      { s.postgres with
        instanceType := t
        monthlyCost := instanceCost * s.postgres.instanceCount *
            (if s.postgres.multiAZ then 2 else 1) + instanceCost * s.postgres.readReplicas } }

/-- Applies a sequence of source instance class changes, recomputing
after each change. -/
def runChanges : List String → EngineState → EngineState
  | [], s => s
  | t :: ts, s => runChanges ts (recompute (changeInstanceType t s))

/-- The history entries generated along a sequence of source instance
class changes, in the order they are appended. -/
def runChangesEntries : List String → EngineState → List HistoryEntry
  | [], _ => []
  | t :: ts, s =>
      newHistoryEntry (changeInstanceType t s) ::
        runChangesEntries ts (recompute (changeInstanceType t s))

/-- Boolean check that every step of a change sequence differs from the
then-current previous instance class. -/
def allDistinctSteps : String → List String → Bool
  | _, [] => true
  | p, t :: ts => (p != t) && allDistinctSteps t ts

/-- Initial `postgres` state from the source. -/
def initialPostgres : PostgresConfig :=
  { instanceType := "db.r5.2xlarge", instanceCount := 2, storageGB := 1000, iops := 3000,
    readOps := 5000, writeOps := 1000, monthlyCost := 2208 * 2, multiAZ := true,
    readReplicas := 1 }

/-- Initial `workload` state from the source. -/
def initialWorkload : Workload :=
  { readWriteRatio := "80/20", type := "OLTP", dataGrowthRate := 10,
    concurrentConnections := 200, trafficSpikes := true, peakRatio := 3 }

/-- Initial `tidbCluster` state from the source. -/
def initialTidbCluster : TidbCluster :=
  { tidbNodes := 3, tikvNodes := 3, pdNodes := 3, tiflashNodes := 0, useTiflash := false,
    eksClusterCount := 1, k8sWorkerNodes := 6, availabilityZones := 3,
    dataReplicationFactor := 3 }

/-- Initial `instances` state from the source. -/
def initialInstances : Instances :=
  { tidbInstanceType := "c5.4xlarge", tikvInstanceType := "i3.4xlarge",
    pdInstanceType := "m5.4xlarge", tiflashInstanceType := "i3.8xlarge",
    monitoringInstanceType := "c5.2xlarge" }

/-- Initial `storage` state from the source. -/
def initialStorage : StorageConfig :=
  { tidbEbsType := "gp3", tidbEbsSize := 100, tikvUseInstanceStore := true,
    tikvAdditionalEbsType := "gp3", tikvAdditionalEbsSize := 0, pdEbsType := "gp3",
    pdEbsSize := 100, tiflashEbsType := "gp3", tiflashEbsSize := 1000 }

/-- Initial `operational` state from the source. -/
def initialOperational : Operational :=
  { backupToS3 := true, backupSizeGB := 1000, networkTrafficGB := 5000, eksClusterCost := 73,
    eksMonitoringCost := 200, migrationCost := 5000, operationalFTE := 5 / 10 }

/-- The complete initial engine state from the source. -/
def initialState : EngineState :=
  { postgres := initialPostgres, workload := initialWorkload, tidbCluster := initialTidbCluster,
    instances := initialInstances, storage := initialStorage, operational := initialOperational,
    previousInstanceType := "db.r5.2xlarge", history := [] }

/-- Initial state with traffic spikes on and a peak ratio of 1, the least
value the form accepts. -/
def c1s : EngineState :=
  { initialState with workload := { initialWorkload with peakRatio := 1 } }

/-- Initial state scaled to 10 primary instances and no read replicas. -/
def c2s : EngineState :=
  { initialState with
    postgres := { initialPostgres with instanceCount := 10, readReplicas := 0 } }

/-- Initial state moved to the 8 vCPU, 32 GB source class, with the
previous instance class already in agreement. -/
def w2s : EngineState :=
  { initialState with
    postgres := { initialPostgres with instanceType := "db.m5.2xlarge" },
    previousInstanceType := "db.m5.2xlarge" }

/-- Eleven source instance class changes, each differing from the class
before it. -/
def ts11 : List String :=
  ["db.m5.large", "db.m5.xlarge", "db.m5.large", "db.m5.xlarge", "db.m5.large",
   "db.m5.xlarge", "db.m5.large", "db.m5.xlarge", "db.m5.large", "db.m5.xlarge",
   "db.m5.large"]

/-- Initial state after one source instance class change has been typed
into the form but before the recomputation runs. -/
def s3w : EngineState := changeInstanceType "db.m5.large" initialState

/-- Workload whose read/write ratio string is outside the enumerated set
yet begins with the two characters 50. -/
def w5049 : Workload := { initialWorkload with readWriteRatio := "50/49" }

/-- State with zero source monthly cost, zero node counts, zero storage
sizes, backups off, and zero network traffic, so that only the fixed
monitoring instance cost remains. -/
def z0 : EngineState :=
  { initialState with
    postgres := { initialPostgres with monthlyCost := 0 },
    tidbCluster := { initialTidbCluster with
      tidbNodes := 0, tikvNodes := 0, pdNodes := 0, tiflashNodes := 0, eksClusterCount := 0 },
    storage := { initialStorage with
      tidbEbsSize := 0, tikvAdditionalEbsSize := 0, pdEbsSize := 0, tiflashEbsSize := 0 },
    operational := { initialOperational with
      backupToS3 := false, networkTrafficGB := 0, eksMonitoringCost := 0 } }

/-- The scenario input of the spec: the 8 vCPU, 32 GB source class with 2
primaries and 1 read replica, a 16 compute unit SQL class selection, 200
connections, traffic spikes, and a peak ratio of 3. -/
def s8 : EngineState :=
  { initialState with postgres := { initialPostgres with instanceType := "db.m5.2xlarge" } }

/-- State whose source instance class and SQL tier instance class are
both absent from the catalogs. -/
def s9 : EngineState :=
  { initialState with
    postgres := { initialPostgres with instanceType := "db.x9.mega" },
    instances := { initialInstances with tidbInstanceType := "x9.mega" } }

/-- State with a pending source instance class change whose memory-based
recommendation coincides with the currently selected SQL class. -/
def c10s : EngineState :=
  { initialState with postgres := { initialPostgres with instanceType := "db.m5.2xlarge" } }

/-- The same engine state with the SQL tier instance class replaced. -/
def withTidbClass (k : String) (s : EngineState) : EngineState :=
  { s with instances := { s.instances with tidbInstanceType := k } }

/-- Evaluation rule for the rational ceiling. -/
theorem ceilq_eval (n : ℤ) {q : ℚ} (h1 : (n : ℚ) - 1 < q) (h2 : q ≤ (n : ℚ)) :
    ceilq q = (n : ℚ) := by
  unfold ceilq
  exact_mod_cast congrArg (fun z : ℤ => (z : ℚ)) (Int.ceil_eq_iff.mpr ⟨h1, h2⟩)

/-- Length of the bounded push: the log grows until it holds 10 entries
and stays at 10 afterwards. -/
theorem pushBounded_length {α : Type} (h : List α) (e : α) :
    (pushBounded h e).length = if 10 ≤ h.length then h.length else h.length + 1 := by
  unfold pushBounded
  split
  next hh =>
    simp
    omega
  next hh => simp

/-- Recomputation with an unchanged source instance class rewrites only
the topology and the SQL tier selection. -/
theorem recompute_of_eq (s : EngineState)
    (h : s.postgres.instanceType = s.previousInstanceType) :
    recompute s =
      { s with
        tidbCluster := setTidbCluster s.postgres s.workload s.instances s.tidbCluster,
        instances := setInstances s.postgres s.instances } := by
  unfold recompute
  rw [if_pos h]

/-- Recomputation with a changed source instance class also syncs the
previous class and appends to the history. -/
theorem recompute_of_ne (s : EngineState)
    (h : s.postgres.instanceType ≠ s.previousInstanceType) :
    recompute s =
      { s with
        tidbCluster := setTidbCluster s.postgres s.workload s.instances s.tidbCluster,
        instances := setInstances s.postgres s.instances,
        previousInstanceType := s.postgres.instanceType,
        history := pushBounded s.history (newHistoryEntry s) } := by
  unfold recompute
  rw [if_neg h]

/-- Dropping past an appended prefix. -/
theorem drop_append_length {α : Type} (A B : List α) (k : ℕ) :
    (A ++ B).drop (A.length + k) = B.drop k := by
  simp [List.drop_append]

/-- C1: the spec invariant demands derived sqlNodes of at least 3 even
when traffic spikes are on with a peak ratio below 2; the code instead
multiplies the SQL node count by min(2, peakRatio / 2), which is below 1
there, and at peak ratio 1 the derived SQL node count is 2. -/
theorem spike_factor_drops_sql_below_minimum :
    (recompute c1s).tidbCluster.tidbNodes = 2 ∧
    (recompute c1s).tidbCluster.tidbNodes < 3 := by
  have h32 : ceilq (3 / 2 : ℚ) = 2 := by
    exact_mod_cast ceilq_eval 2 (by norm_num) (by norm_num)
  have h25 : ceilq (2 / 5 : ℚ) = 1 := by
    exact_mod_cast ceilq_eval 1 (by norm_num) (by norm_num)
  have hmain : (recompute c1s).tidbCluster.tidbNodes = 2 := by
    rw [show (recompute c1s).tidbCluster.tidbNodes =
        ceilq (max (max 3 (ceilq ((8 * 2 + 8 * 2 * (1 / 2)) / 16)))
          (max 3 (ceilq (200 / 500))) * min 2 (1 / 2)) from rfl]
    norm_num [h32, h25, max_def, min_def]
  exact ⟨hmain, by rw [hmain]; norm_num⟩

/-- C5: the reported total monthly cost is exactly the sum of the
monthly values of the generated cost breakdown entries. -/
theorem total_cost_equals_breakdown_sum (s : EngineState) :
    ((costBreakdownData s).map Prod.snd).sum = totalMonthlyCost s := by
  simp [costBreakdownData, totalMonthlyCost, totalInstanceCost, totalStorageCost]
  ring

/-- C6 counterexample: the string 50/49 lies outside the enumerated
ratio set, yet the write-heavy multiplier applied to it is 1.5 rather
than 1, because the source matches on the prefix 50. -/
theorem write_heavy_factor_prefix_cex :
    writeHeavyFactor w5049 = 3 / 2 ∧ w5049.readWriteRatio ≠ "50/50" :=
  ⟨rfl, by decide⟩

/-- C6 amended: the multiplier is 1.5 for every ratio string starting
with 50 and 2 for every ratio string starting with 30 (a prefix match,
not an exact enumeration match); on strings starting with neither it is
1, and on the enumerated set the values are 1.5, 2, 1 and 1. -/
theorem write_heavy_factor_prefix_match (w : Workload)
    (h50 : strStarts w.readWriteRatio "50" = false)
    (h30 : strStarts w.readWriteRatio "30" = false) :
    writeHeavyFactor w = 1 ∧
    writeHeavyFactor { w with readWriteRatio := "50/50" } = 3 / 2 ∧
    writeHeavyFactor { w with readWriteRatio := "30/70" } = 2 ∧
    writeHeavyFactor { w with readWriteRatio := "90/10" } = 1 ∧
    writeHeavyFactor { w with readWriteRatio := "80/20" } = 1 := by
  refine ⟨?_, rfl, rfl, rfl, rfl⟩
  simp [writeHeavyFactor, h50, h30]

/-- C6 witness: the amended statement applied at the 80/20 workload. -/
theorem write_heavy_factor_prefix_match_witness :
    strStarts initialWorkload.readWriteRatio "50" = false ∧
    strStarts initialWorkload.readWriteRatio "30" = false ∧
    writeHeavyFactor initialWorkload = 1 :=
  ⟨rfl, rfl, (write_heavy_factor_prefix_match initialWorkload rfl rfl).1⟩

/-- C7: a zero source monthly cost yields a savings percentage of 0
rather than an undefined value, and non-positive savings yield the
non-numeric payback sentinel rather than a number or an error. -/
theorem division_by_zero_sentinels (s : EngineState) :
    (s.postgres.monthlyCost = 0 → savingsPercentage s = 0) ∧
    (monthlySavings s ≤ 0 → paybackPeriodMonths s = none) := by
  constructor
  · intro h
    unfold savingsPercentage
    rw [if_neg (by rw [h]; exact lt_irrefl 0)]
  · intro h
    unfold paybackPeriodMonths
    rw [if_neg (not_lt.mpr h)]

/-- C7 witness: the sentinel behaviour at the concrete state z0, whose
source monthly cost is 0 and whose savings are negative. -/
theorem division_by_zero_sentinels_witness :
    savingsPercentage z0 = 0 ∧ paybackPeriodMonths z0 = none := by
  have hz : z0.postgres.monthlyCost = 0 := rfl
  have hs : monthlySavings z0 ≤ 0 := by
    rw [show monthlySavings z0 =
        0 - (493 * 0 + 998 * 0 + 556 * 0 + 1995 * 0 + 246 +
          (0 * 0 + 0 * 0 + 0 * 0 + 0 * 0) + 0 + 0 * (1 / 100) + (0 * 73 + 0)) from rfl]
    norm_num
  exact ⟨(division_by_zero_sentinels z0).1 hz, (division_by_zero_sentinels z0).2 hs⟩

/-- C8: at the scenario input of the spec the SQL candidate from compute
is 3, the candidate from connections is 3, the spike multiplier is 1.5,
and the derived SQL node count is 5. -/
theorem scenario_sql_nodes_five :
    suggestedTidbNodesFromCpu s8.postgres s8.instances = 3 ∧
    suggestedTidbNodesFromConn s8.workload = 3 ∧
    spikeFactor s8.workload = 3 / 2 ∧
    (recompute s8).tidbCluster.tidbNodes = 5 := by
  have h32 : ceilq (3 / 2 : ℚ) = 2 := by
    exact_mod_cast ceilq_eval 2 (by norm_num) (by norm_num)
  have h25 : ceilq (2 / 5 : ℚ) = 1 := by
    exact_mod_cast ceilq_eval 1 (by norm_num) (by norm_num)
  have h92 : ceilq (9 / 2 : ℚ) = 5 := by
    exact_mod_cast ceilq_eval 5 (by norm_num) (by norm_num)
  refine ⟨?_, ?_, ?_, ?_⟩
  · rw [show suggestedTidbNodesFromCpu s8.postgres s8.instances =
        max 3 (ceilq ((8 * 2 + 8 * 2 * (1 / 2)) / 16)) from rfl]
    norm_num [h32, max_def]
  · rw [show suggestedTidbNodesFromConn s8.workload = max 3 (ceilq (200 / 500)) from rfl]
    norm_num [h25, max_def]
  · rw [show spikeFactor s8.workload = min 2 (3 / 2) from rfl]
    norm_num [min_def]
  · rw [show (recompute s8).tidbCluster.tidbNodes =
        ceilq (max (max 3 (ceilq ((8 * 2 + 8 * 2 * (1 / 2)) / 16)))
          (max 3 (ceilq (200 / 500))) * min 2 (3 / 2)) from rfl]
    norm_num [h32, h25, h92, max_def, min_def]

/-- Replacing a bounded push by a plain append does not change the tail
of the log that survives a later sequence of drops. -/
theorem pushBounded_drop_eq {α : Type} (A : List α) (e : α) (B : List α) (n : ℕ)
    (hA : A.length ≤ 10) :
    (pushBounded A e ++ B).drop ((pushBounded A e).length + n - 10) =
      (A ++ e :: B).drop (A.length + (n + 1) - 10) := by
  rw [pushBounded_length]
  unfold pushBounded
  by_cases hge : 10 ≤ A.length
  · rw [if_pos hge, if_pos hge]
    have hL : A.length = 10 := le_antisymm hA hge
    obtain ⟨a, A2, rfl⟩ : ∃ a A2, A = a :: A2 := by
      cases A with
      | nil => simp at hL
      | cons a A2 => exact ⟨a, A2, rfl⟩
    have h2 : A2.length = 9 := by
      simp only [List.length_cons] at hL
      omega
    simp only [List.length_cons, h2, List.drop_one, List.tail_cons]
    rw [show 9 + 1 + n - 10 = n by omega, show 9 + 1 + (n + 1) - 10 = n + 1 by omega]
    rw [List.cons_append, List.drop_succ_cons, List.append_assoc, List.singleton_append]
  · rw [if_neg hge, if_neg hge, List.append_assoc, List.singleton_append,
        show A.length + 1 + n - 10 = A.length + (n + 1) - 10 by omega]

/-- History invariant along a sequence of source instance class changes:
the log is the tail of the old log followed by the generated entries, and
its length is capped at 10. -/
theorem runChanges_history_spec (ts : List String) : ∀ s : EngineState,
    s.history.length ≤ 10 → allDistinctSteps s.previousInstanceType ts = true →
    (runChanges ts s).history =
      (s.history ++ runChangesEntries ts s).drop (s.history.length + ts.length - 10) ∧
    (runChanges ts s).history.length = min 10 (s.history.length + ts.length) := by
  induction ts with
  | nil =>
    intro s hlen _
    refine ⟨?_, ?_⟩
    · simp only [runChanges, runChangesEntries, List.append_nil, List.length_nil, Nat.add_zero]
      rw [Nat.sub_eq_zero_of_le hlen, List.drop_zero]
    · simp only [runChanges, List.length_nil, Nat.add_zero]
      omega
  | cons t ts ih =>
    intro s hlen hsteps
    rw [show allDistinctSteps s.previousInstanceType (t :: ts) =
        ((s.previousInstanceType != t) && allDistinctSteps t ts) from rfl,
      Bool.and_eq_true] at hsteps
    obtain ⟨hne0, hrest⟩ := hsteps
    have hne : (changeInstanceType t s).postgres.instanceType ≠
        (changeInstanceType t s).previousInstanceType := by
      show t ≠ s.previousInstanceType
      exact fun hh => bne_iff_ne.mp hne0 hh.symm
    have hprev1 : (recompute (changeInstanceType t s)).previousInstanceType = t := by
      rw [recompute_of_ne _ hne]
      rfl
    have hhist1 : (recompute (changeInstanceType t s)).history =
        pushBounded s.history (newHistoryEntry (changeInstanceType t s)) := by
      rw [recompute_of_ne _ hne]
      rfl
    have hlen1 : (recompute (changeInstanceType t s)).history.length ≤ 10 := by
      rw [hhist1, pushBounded_length]
      split <;> omega
    have hsteps1 :
        allDistinctSteps (recompute (changeInstanceType t s)).previousInstanceType ts = true := by
      rw [hprev1]
      exact hrest
    obtain ⟨ihh, ihl⟩ := ih (recompute (changeInstanceType t s)) hlen1 hsteps1
    refine ⟨?_, ?_⟩
    · rw [show runChanges (t :: ts) s = runChanges ts (recompute (changeInstanceType t s)) from rfl,
        show runChangesEntries (t :: ts) s =
          newHistoryEntry (changeInstanceType t s) ::
            runChangesEntries ts (recompute (changeInstanceType t s)) from rfl,
        ihh, hhist1, show (t :: ts).length = ts.length + 1 from rfl]
      exact pushBounded_drop_eq s.history (newHistoryEntry (changeInstanceType t s)) _ ts.length hlen
    · rw [show runChanges (t :: ts) s = runChanges ts (recompute (changeInstanceType t s)) from rfl,
        ihl, hhist1, pushBounded_length, show (t :: ts).length = ts.length + 1 from rfl]
      split <;> omega

/-- C4: after any sequence of more than 10 recomputations that each
change the source instance class, the history log holds exactly 10
entries, namely the 10 most recent transitions in order (the oldest
having been evicted first); and a recomputation without a source
instance class change leaves the log untouched. -/
theorem history_bounded_last_ten (s : EngineState) (ts : List String)
    (hlen : s.history.length ≤ 10)
    (hsteps : allDistinctSteps s.previousInstanceType ts = true)
    (hmany : 10 < ts.length) :
    (runChanges ts s).history.length = 10 ∧
    (runChanges ts s).history = (runChangesEntries ts s).drop (ts.length - 10) ∧
    (∀ s2 : EngineState, s2.postgres.instanceType = s2.previousInstanceType →
      (recompute s2).history = s2.history) := by
  obtain ⟨hh, hl⟩ := runChanges_history_spec ts s hlen hsteps
  refine ⟨by rw [hl]; omega, ?_, ?_⟩
  · rw [hh, show s.history.length + ts.length - 10 = s.history.length + (ts.length - 10) by omega,
      drop_append_length]
  · intro s2 h2
    rw [recompute_of_eq s2 h2]

/-- C4 witness: eleven alternating changes from the initial state leave
a history of length exactly 10. -/
theorem history_bounded_last_ten_witness :
    initialState.history.length ≤ 10 ∧
    allDistinctSteps initialState.previousInstanceType ts11 = true ∧
    10 < ts11.length ∧
    (runChanges ts11 initialState).history.length = 10 := by
  refine ⟨by decide, by decide, by decide, ?_⟩
  exact (history_bounded_last_ten initialState ts11 (by decide) (by decide) (by decide)).1

/-- C3 counterexample: along eleven changes from the initial state the
recorded sequence ids are 1 to 9 followed by a second 9: the eleventh
entry receives id 9 although an entry with id 9 is already present, so
the id of a new entry is not strictly greater than all existing ids once
the log has reached its bound. -/
theorem sequence_id_repeats_after_bound_cex :
    ((runChanges ts11 initialState).history.map (fun e => e.id)) =
      [1, 2, 3, 4, 5, 6, 7, 8, 9, 9] := by decide

/-- C3 amended: the appended entry always lands at the end of the log
and its sequence id equals the length of the log after the eviction
step: the id continues from the prior log only while the log holds fewer
than 10 entries; once the log is full every new entry receives id 9. -/
theorem sequence_id_equals_post_eviction_length (s : EngineState)
    (h : s.postgres.instanceType ≠ s.previousInstanceType) :
    (recompute s).history.getLast? = some (newHistoryEntry s) ∧
    (s.history.length < 10 → (newHistoryEntry s).id = s.history.length) ∧
    (10 ≤ s.history.length → (newHistoryEntry s).id = s.history.length - 1) := by
  refine ⟨?_, ?_, ?_⟩
  · rw [recompute_of_ne s h]
    show (pushBounded s.history (newHistoryEntry s)).getLast? = _
    unfold pushBounded
    exact List.getLast?_concat _
  · intro hlt
    show (if 10 ≤ s.history.length then s.history.drop 1 else s.history).length =
      s.history.length
    rw [if_neg (by omega)]
  · intro hge
    show (if 10 ≤ s.history.length then s.history.drop 1 else s.history).length =
      s.history.length - 1
    rw [if_pos hge]
    simp

/-- C3 witness: the first recorded entry of the initial state receives
sequence id 0, the length of the empty log. -/
theorem sequence_id_equals_post_eviction_length_witness :
    s3w.postgres.instanceType ≠ s3w.previousInstanceType ∧
    s3w.history.length < 10 ∧ (newHistoryEntry s3w).id = 0 := by
  have h : s3w.postgres.instanceType ≠ s3w.previousInstanceType := by decide
  refine ⟨h, by decide, ?_⟩
  exact ((sequence_id_equals_post_eviction_length s3w h).2.1 (by decide)).trans rfl

/-- Rewriting the SQL tier selection is idempotent. -/
theorem setInstances_idem (p : PostgresConfig) (i : Instances) :
    setInstances p (setInstances p i) = setInstances p i := rfl

/-- The SQL node count depends on the instance selection only through
the vCPU of the selected SQL class. -/
theorem baseTidbNodes_congr (p : PostgresConfig) (w : Workload) {i i2 : Instances}
    (h : vcpuPerTidbNode i2 = vcpuPerTidbNode i) :
    baseTidbNodes p w i2 = baseTidbNodes p w i := by
  unfold baseTidbNodes suggestedTidbNodesFromCpu
  rw [h]

/-- The derived topology depends on the instance selection only through
the vCPU of the selected SQL class. -/
theorem setTidbCluster_congr (p : PostgresConfig) (w : Workload) {i i2 : Instances}
    (c : TidbCluster) (h : vcpuPerTidbNode i2 = vcpuPerTidbNode i) :
    setTidbCluster p w i2 c = setTidbCluster p w i c := by
  unfold setTidbCluster suggestedWorkerNodes totalComponents
  rw [baseTidbNodes_congr p w h]

/-- Deriving the topology a second time from an already derived topology
changes nothing, provided the vCPU of the selected SQL class is the
same. -/
theorem setTidbCluster_stable (p : PostgresConfig) (w : Workload) {i i2 : Instances}
    (c : TidbCluster) (h : vcpuPerTidbNode i2 = vcpuPerTidbNode i) :
    setTidbCluster p w i2 (setTidbCluster p w i c) = setTidbCluster p w i c := by
  rw [setTidbCluster_congr p w _ h]
  unfold setTidbCluster suggestedWorkerNodes totalComponents
  rfl

/-- C2 amended: with no source instance class change a recomputation
never appends to the history, and a second recomputation is the identity
provided the SQL class that the first recomputation selects carries the
same compute units as the one selected before; without that proviso the
second derivation can differ, because it reads compute units from the
instance class the first derivation rewrote. -/
theorem recompute_idempotent_of_vcpu_fixed (s : EngineState)
    (h1 : s.postgres.instanceType = s.previousInstanceType)
    (h2 : vcpuPerTidbNode (setInstances s.postgres s.instances) = vcpuPerTidbNode s.instances) :
    recompute (recompute s) = recompute s ∧ (recompute s).history = s.history := by
  rw [recompute_of_eq s h1]
  constructor
  · rw [recompute_of_eq
      { s with
        tidbCluster := setTidbCluster s.postgres s.workload s.instances s.tidbCluster,
        instances := setInstances s.postgres s.instances } h1]
    show ({ s with
        tidbCluster := setTidbCluster s.postgres s.workload
          (setInstances s.postgres s.instances)
          (setTidbCluster s.postgres s.workload s.instances s.tidbCluster),
        instances := setInstances s.postgres (setInstances s.postgres s.instances) } :
        EngineState) =
      { s with
        tidbCluster := setTidbCluster s.postgres s.workload s.instances s.tidbCluster,
        instances := setInstances s.postgres s.instances }
    rw [setTidbCluster_stable s.postgres s.workload s.tidbCluster h2, setInstances_idem]
  · rfl

/-- C2 witness: at the 8 vCPU, 32 GB source class the automatic SQL
class selection is the already selected class, and a second
recomputation changes nothing. -/
theorem recompute_idempotent_witness :
    w2s.postgres.instanceType = w2s.previousInstanceType ∧
    vcpuPerTidbNode (setInstances w2s.postgres w2s.instances) = vcpuPerTidbNode w2s.instances ∧
    recompute (recompute w2s) = recompute w2s ∧ (recompute w2s).history = w2s.history := by
  have h1 : w2s.postgres.instanceType = w2s.previousInstanceType := rfl
  have h2 : vcpuPerTidbNode (setInstances w2s.postgres w2s.instances) =
      vcpuPerTidbNode w2s.instances := rfl
  obtain ⟨a, b⟩ := recompute_idempotent_of_vcpu_fixed w2s h1 h2
  exact ⟨h1, h2, a, b⟩

/-- C2 counterexample: at the initial state scaled to 10 primaries the
source instance class does not change, yet running the recomputation
twice yields a different SQL node count than running it once, because
the second run reads the compute units of the SQL class the first run
selected. -/
theorem recompute_twice_differs_cex :
    c2s.postgres.instanceType = c2s.previousInstanceType ∧
    (recompute (recompute c2s)).tidbCluster.tidbNodes ≠
      (recompute c2s).tidbCluster.tidbNodes := by
  have h5 : ceilq (5 : ℚ) = 5 := by
    exact_mod_cast ceilq_eval 5 (by norm_num) (by norm_num)
  have h25 : ceilq (2 / 5 : ℚ) = 1 := by
    exact_mod_cast ceilq_eval 1 (by norm_num) (by norm_num)
  have h152 : ceilq (15 / 2 : ℚ) = 8 := by
    exact_mod_cast ceilq_eval 8 (by norm_num) (by norm_num)
  have h10 : ceilq (10 : ℚ) = 10 := by
    exact_mod_cast ceilq_eval 10 (by norm_num) (by norm_num)
  have h15 : ceilq (15 : ℚ) = 15 := by
    exact_mod_cast ceilq_eval 15 (by norm_num) (by norm_num)
  have e1 : (recompute c2s).tidbCluster.tidbNodes = 8 := by
    rw [show (recompute c2s).tidbCluster.tidbNodes =
        ceilq (max (max 3 (ceilq ((8 * 10 + 8 * 10 * (0 / 10)) / 16)))
          (max 3 (ceilq (200 / 500))) * min 2 (3 / 2)) from rfl]
    norm_num [h5, h25, h152, max_def, min_def]
  have e2 : (recompute (recompute c2s)).tidbCluster.tidbNodes = 15 := by
    rw [show (recompute (recompute c2s)).tidbCluster.tidbNodes =
        ceilq (max (max 3 (ceilq ((8 * 10 + 8 * 10 * (0 / 10)) / 8)))
          (max 3 (ceilq (200 / 500))) * min 2 (3 / 2)) from rfl]
    norm_num [h10, h25, h15, max_def, min_def]
  refine ⟨rfl, ?_⟩
  rw [e1, e2]
  norm_num

/-- C9: the derivation is total and degrades gracefully on unknown
catalog keys: a missing source class falls back to 8 vCPU and 32 GB, a
missing SQL tier class falls back to 16 compute units, and the whole
recomputation behaves exactly as if the documented default 16 compute
unit class had been selected. -/
theorem unknown_catalog_key_fallback (s : EngineState)
    (hpg : postgresInstanceTypes s.postgres.instanceType = none)
    (hec2 : ec2InstanceTypes s.instances.tidbInstanceType = none) :
    postgresVcpu s.postgres = 8 ∧ postgresMemory s.postgres = 32 ∧
    vcpuPerTidbNode s.instances = 16 ∧
    recompute s = recompute (withTidbClass "c5.4xlarge" s) := by
  have hv : postgresVcpu s.postgres = 8 := by
    unfold postgresVcpu
    rw [hpg]
    rfl
  have hm : postgresMemory s.postgres = 32 := by
    unfold postgresMemory
    rw [hpg]
    rfl
  have hvc : vcpuPerTidbNode s.instances = 16 := by
    unfold vcpuPerTidbNode
    rw [hec2]
    rfl
  have hvc2 : vcpuPerTidbNode (withTidbClass "c5.4xlarge" s).instances = 16 := rfl
  have hcost : tidbInstanceCost s.instances = 493 := by
    unfold tidbInstanceCost
    rw [hec2]
    rfl
  have hcost2 : tidbInstanceCost (withTidbClass "c5.4xlarge" s).instances = 493 := rfl
  have hset : setTidbCluster s.postgres s.workload (withTidbClass "c5.4xlarge" s).instances
      s.tidbCluster = setTidbCluster s.postgres s.workload s.instances s.tidbCluster :=
    setTidbCluster_congr s.postgres s.workload s.tidbCluster (hvc2.trans hvc.symm)
  have hinst : setInstances s.postgres (withTidbClass "c5.4xlarge" s).instances =
      setInstances s.postgres s.instances := rfl
  have hbase : baseTidbNodes (withTidbClass "c5.4xlarge" s).postgres
      (withTidbClass "c5.4xlarge" s).workload (withTidbClass "c5.4xlarge" s).instances =
      baseTidbNodes s.postgres s.workload s.instances :=
    baseTidbNodes_congr s.postgres s.workload (hvc2.trans hvc.symm)
  have hentry : newHistoryEntry (withTidbClass "c5.4xlarge" s) = newHistoryEntry s := by
    simp only [newHistoryEntry]
    rw [hbase, hcost2, hcost]
    rfl
  refine ⟨hv, hm, hvc, ?_⟩
  by_cases hc : s.postgres.instanceType = s.previousInstanceType
  · rw [recompute_of_eq s hc, recompute_of_eq (withTidbClass "c5.4xlarge" s) hc]
    show ({ s with
        tidbCluster := setTidbCluster s.postgres s.workload s.instances s.tidbCluster,
        instances := setInstances s.postgres s.instances } : EngineState) =
      { s with
        tidbCluster := setTidbCluster s.postgres s.workload
          (withTidbClass "c5.4xlarge" s).instances s.tidbCluster,
        instances := setInstances s.postgres (withTidbClass "c5.4xlarge" s).instances }
    rw [hset, hinst]
  · rw [recompute_of_ne s hc, recompute_of_ne (withTidbClass "c5.4xlarge" s) hc]
    show ({ s with
        tidbCluster := setTidbCluster s.postgres s.workload s.instances s.tidbCluster,
        instances := setInstances s.postgres s.instances,
        previousInstanceType := s.postgres.instanceType,
        history := pushBounded s.history (newHistoryEntry s) } : EngineState) =
      { s with
        tidbCluster := setTidbCluster s.postgres s.workload
          (withTidbClass "c5.4xlarge" s).instances s.tidbCluster,
        instances := setInstances s.postgres (withTidbClass "c5.4xlarge" s).instances,
        previousInstanceType := s.postgres.instanceType,
        history := pushBounded s.history (newHistoryEntry (withTidbClass "c5.4xlarge" s)) }
    rw [hset, hinst, hentry]

/-- C9 witness: the fallback behaviour at a state whose source class and
SQL class are both unknown keys. -/
theorem unknown_catalog_key_fallback_witness :
    postgresInstanceTypes s9.postgres.instanceType = none ∧
    ec2InstanceTypes s9.instances.tidbInstanceType = none ∧
    postgresVcpu s9.postgres = 8 ∧ vcpuPerTidbNode s9.instances = 16 ∧
    recompute s9 = recompute (withTidbClass "c5.4xlarge" s9) := by
  have h1 : postgresInstanceTypes s9.postgres.instanceType = none := rfl
  have h2 : ec2InstanceTypes s9.instances.tidbInstanceType = none := rfl
  obtain ⟨a, _, c, d⟩ := unknown_catalog_key_fallback s9 h1 h2
  exact ⟨h1, h2, a, c, d⟩

/-- C10: the monthly cost recorded in every appended history entry is
the compute-only cost, namely each tier instance monthly cost (at the
selection in effect when the entry is created) times that tier derived
node count, plus one monitoring instance; the recomputed state total
exceeds its own instance total by exactly the storage, backup, network
and orchestration components that the entry excludes, and at a concrete
change the recorded cost (7373) differs from the reported total
(7783). -/
theorem history_entry_cost_compute_only (s : EngineState)
    (hchg : s.postgres.instanceType ≠ s.previousInstanceType) :
    ((recompute s).history.getLast?).map (fun e => e.monthlyCost) =
      some (computeCost (setTidbCluster s.postgres s.workload s.instances s.tidbCluster)
        s.instances) ∧
    totalMonthlyCost (recompute s) =
      totalInstanceCost (recompute s) +
        (totalStorageCost (recompute s) + s3BackupCost (recompute s) +
          networkCost (recompute s) + totalKubernetesCost (recompute s)) ∧
    (newHistoryEntry c10s).monthlyCost ≠ totalMonthlyCost (recompute c10s) := by
  refine ⟨?_, ?_, ?_⟩
  · rw [recompute_of_ne s hchg]
    show (pushBounded s.history (newHistoryEntry s)).getLast?.map (fun e => e.monthlyCost) = _
    unfold pushBounded
    rw [List.getLast?_concat]
    rfl
  · unfold totalMonthlyCost
    ring
  · have h32 : ceilq (3 / 2 : ℚ) = 2 := by
      exact_mod_cast ceilq_eval 2 (by norm_num) (by norm_num)
    have h25 : ceilq (2 / 5 : ℚ) = 1 := by
      exact_mod_cast ceilq_eval 1 (by norm_num) (by norm_num)
    have h92 : ceilq (9 / 2 : ℚ) = 5 := by
      exact_mod_cast ceilq_eval 5 (by norm_num) (by norm_num)
    have h18 : ceilq (1 / 8 : ℚ) = 1 := by
      exact_mod_cast ceilq_eval 1 (by norm_num) (by norm_num)
    have h115 : ceilq (1 / 15 : ℚ) = 1 := by
      exact_mod_cast ceilq_eval 1 (by norm_num) (by norm_num)
    have h3 : ceilq (3 : ℚ) = 3 := by
      exact_mod_cast ceilq_eval 3 (by norm_num) (by norm_num)
    have ea : (newHistoryEntry c10s).monthlyCost = 7373 := by
      rw [show (newHistoryEntry c10s).monthlyCost =
          493 * ceilq (max (max 3 (ceilq ((8 * 2 + 8 * 2 * (1 / 2)) / 16)))
              (max 3 (ceilq (200 / 500))) * min 2 (3 / 2)) +
            998 * ceilq (max 3 (max (ceilq (1000 * (4 / 10) * 3 / (8 / 10 * 4000 * 3)) * 3)
              (max 3 (ceilq (1000 / 5000 / 3) * 3))) * 1) +
            556 * 3 + 1995 * 0 + 246 from rfl]
      norm_num [h32, h25, h92, h18, h115, h3, max_def, min_def]
    have eb : totalMonthlyCost (recompute c10s) = 7783 := by
      rw [show totalMonthlyCost (recompute c10s) =
          (493 * ceilq (max (max 3 (ceilq ((8 * 2 + 8 * 2 * (1 / 2)) / 16)))
              (max 3 (ceilq (200 / 500))) * min 2 (3 / 2)) +
            998 * ceilq (max 3 (max (ceilq (1000 * (4 / 10) * 3 / (8 / 10 * 4000 * 3)) * 3)
              (max 3 (ceilq (1000 / 5000 / 3) * 3))) * 1) +
            556 * 3 + 1995 * 0 + 246) +
          (100 * (8 / 100) * ceilq (max (max 3 (ceilq ((8 * 2 + 8 * 2 * (1 / 2)) / 16)))
              (max 3 (ceilq (200 / 500))) * min 2 (3 / 2)) +
            0 * ceilq (max 3 (max (ceilq (1000 * (4 / 10) * 3 / (8 / 10 * 4000 * 3)) * 3)
              (max 3 (ceilq (1000 / 5000 / 3) * 3))) * 1) +
            100 * (8 / 100) * 3 + 1000 * (8 / 100) * 0) +
          1000 * (23 / 1000) + 5000 * (1 / 100) + (1 * 73 + 200) from rfl]
      norm_num [h32, h25, h92, h18, h115, h3, max_def, min_def]
    rw [ea, eb]
    norm_num

/-- C10 witness: the compute-only recorded cost at a concrete source
instance class change, together with its difference from the reported
total. -/
theorem history_entry_cost_compute_only_witness :
    c10s.postgres.instanceType ≠ c10s.previousInstanceType ∧
    ((recompute c10s).history.getLast?).map (fun e => e.monthlyCost) =
      some (computeCost (setTidbCluster c10s.postgres c10s.workload c10s.instances
        c10s.tidbCluster) c10s.instances) ∧
    (newHistoryEntry c10s).monthlyCost ≠ totalMonthlyCost (recompute c10s) := by
  have h1 : c10s.postgres.instanceType ≠ c10s.previousInstanceType := by decide
  obtain ⟨a, _, c⟩ := history_entry_cost_compute_only c10s h1
  exact ⟨h1, a, c⟩
